import Mathlib

/-!
Verification of the TensorBoard generic data-provider contract
(`tensorboard/data/provider.py`).

The file shallowly embeds the module's value types (`Run`,
`ScalarTimeSeries`, `BlobSequenceTimeSeries`, `ScalarDatum`,
`BlobReference`, `BlobSequenceDatum`), the `RunTagFilter` class, and the
`DataProvider` abstract-base-class surface, and proves the spec's claims
about them.

Python field values are modelled by `PyVal`, a type of the concrete
Python values the module stores in its slots (strings, ints, rationals
standing for non-NaN floats, byte strings, booleans, and `None`), with
decidable equality standing for Python `==`/`!=` on those values.
-/

namespace Provider

/-- A Python value as stored in the value types' fields.  The module's
constructors accept arbitrary values without validation, so fields are
modelled by this common type with decidable equality. -/
inductive PyVal where
  | none : PyVal
  | boolVal (b : Bool) : PyVal
  | intVal (n : Int) : PyVal
  | floatVal (q : ℚ) : PyVal
  | strVal (s : String) : PyVal
  | bytesVal (bs : List Nat) : PyVal
deriving DecidableEq, Repr

/-- `Run` from `provider.py`: fields `_run_id`, `_run_name`, `_start_time`,
stored by `__init__` in this order and returned by the properties
`run_id`, `run_name`, `start_time`. -/
structure Run where
  run_id : PyVal
  run_name : PyVal
  start_time : PyVal
deriving DecidableEq, Repr

/-- `ScalarTimeSeries`: the `_TimeSeries` base fields, in the order of
`_TimeSeries.__init__`. -/
structure ScalarTimeSeries where
  max_step : PyVal
  max_wall_time : PyVal
  plugin_content : PyVal
  description : PyVal
  display_name : PyVal
deriving DecidableEq, Repr

/-- `BlobSequenceTimeSeries`: the `_TimeSeries` base fields plus
`_latest_max_index`, in the order of `BlobSequenceTimeSeries.__init__`. -/
structure BlobSequenceTimeSeries where
  max_step : PyVal
  max_wall_time : PyVal
  latest_max_index : PyVal
  plugin_content : PyVal
  description : PyVal
  display_name : PyVal
deriving DecidableEq, Repr

/-- `ScalarDatum`: fields `_step`, `_wall_time`, `_value`. -/
structure ScalarDatum where
  step : PyVal
  wall_time : PyVal
  value : PyVal
deriving DecidableEq, Repr

/-- `BlobReference`: fields `_blob_key` and `_url`, as stored by
`__init__(self, blob_key, url=None)`. -/
structure BlobReference where
  blob_key : PyVal
  url : PyVal
deriving DecidableEq, Repr

/-- `BlobReference(blob_key)` with the `url` argument omitted: the
default `url=None` is stored. -/
def BlobReference.ofKey (blob_key : PyVal) : BlobReference :=
  ⟨blob_key, PyVal.none⟩

/-- `BlobSequenceDatum`: fields `_step`, `_wall_time`, `_values`, where
`_values` is a tuple of `BlobReference` objects. -/
structure BlobSequenceDatum where
  step : PyVal
  wall_time : PyVal
  values : List BlobReference
deriving DecidableEq, Repr

/-- `Run.__eq__` after the `isinstance` check: compare `_run_id`,
`_run_name`, `_start_time` in turn, returning `False` at the first
mismatch. -/
def Run.beq (a b : Run) : Bool :=
  if a.run_id ≠ b.run_id then false
  else if a.run_name ≠ b.run_name then false
  else if a.start_time ≠ b.start_time then false
  else true

/-- `ScalarTimeSeries.__eq__` after the `isinstance` check. -/
def ScalarTimeSeries.beq (a b : ScalarTimeSeries) : Bool :=
  if a.max_step ≠ b.max_step then false
  else if a.max_wall_time ≠ b.max_wall_time then false
  else if a.plugin_content ≠ b.plugin_content then false
  else if a.description ≠ b.description then false
  else if a.display_name ≠ b.display_name then false
  else true

/-- `BlobSequenceTimeSeries.__eq__` after the `isinstance` check. -/
def BlobSequenceTimeSeries.beq (a b : BlobSequenceTimeSeries) : Bool :=
  if a.max_step ≠ b.max_step then false
  else if a.max_wall_time ≠ b.max_wall_time then false
  else if a.latest_max_index ≠ b.latest_max_index then false
  else if a.plugin_content ≠ b.plugin_content then false
  else if a.description ≠ b.description then false
  else if a.display_name ≠ b.display_name then false
  else true

/-- `ScalarDatum.__eq__` after the `isinstance` check. -/
def ScalarDatum.beq (a b : ScalarDatum) : Bool :=
  if a.step ≠ b.step then false
  else if a.wall_time ≠ b.wall_time then false
  else if a.value ≠ b.value then false
  else true

/-- `BlobReference.__eq__` after the `isinstance` check. -/
def BlobReference.beq (a b : BlobReference) : Bool :=
  if a.blob_key ≠ b.blob_key then false
  else if a.url ≠ b.url then false
  else true

/-- Python tuple equality on tuples of `BlobReference`s: equal length and
elementwise `BlobReference.__eq__`.  Used by
`BlobSequenceDatum.__eq__` for the `_values` comparison. -/
def blobListBeq : List BlobReference → List BlobReference → Bool
  | [], [] => true
  | a :: as, b :: bs => a.beq b && blobListBeq as bs
  | _, _ => false

/-- `BlobSequenceDatum.__eq__` after the `isinstance` check; the
`_values` fields are tuples compared elementwise. -/
def BlobSequenceDatum.beq (a b : BlobSequenceDatum) : Bool :=
  if a.step ≠ b.step then false
  else if a.wall_time ≠ b.wall_time then false
  else if blobListBeq a.values b.values = false then false
  else true

/-- The tuple of fields that `Run.__hash__` passes to Python's `hash`.
Python's `hash` is a deterministic function of this tuple, so equal
tuples yield equal hashes. -/
def Run.hashFields (a : Run) : PyVal × PyVal × PyVal :=
  (a.run_id, a.run_name, a.start_time)

/-- The tuple of fields that `ScalarTimeSeries.__hash__` hashes. -/
def ScalarTimeSeries.hashFields (a : ScalarTimeSeries) :
    PyVal × PyVal × PyVal × PyVal × PyVal :=
  (a.max_step, a.max_wall_time, a.plugin_content, a.description,
    a.display_name)

/-- The tuple of fields that `BlobSequenceTimeSeries.__hash__` hashes. -/
def BlobSequenceTimeSeries.hashFields (a : BlobSequenceTimeSeries) :
    PyVal × PyVal × PyVal × PyVal × PyVal × PyVal :=
  (a.max_step, a.max_wall_time, a.latest_max_index, a.plugin_content,
    a.description, a.display_name)

/-- The tuple of fields that `ScalarDatum.__hash__` hashes. -/
def ScalarDatum.hashFields (a : ScalarDatum) : PyVal × PyVal × PyVal :=
  (a.step, a.wall_time, a.value)

/-- The tuple of fields that `BlobReference.__hash__` hashes. -/
def BlobReference.hashFields (a : BlobReference) : PyVal × PyVal :=
  (a.blob_key, a.url)

/-- The tuple of fields that `BlobSequenceDatum.__hash__` hashes. -/
def BlobSequenceDatum.hashFields (a : BlobSequenceDatum) :
    PyVal × PyVal × List BlobReference :=
  (a.step, a.wall_time, a.values)

/-- An instance of one of the module's six concrete value types, for
stating facts about Python `==` across types. -/
inductive PyObj where
  | run (a : Run) : PyObj
  | scalarTimeSeries (a : ScalarTimeSeries) : PyObj
  | blobSequenceTimeSeries (a : BlobSequenceTimeSeries) : PyObj
  | scalarDatum (a : ScalarDatum) : PyObj
  | blobReference (a : BlobReference) : PyObj
  | blobSequenceDatum (a : BlobSequenceDatum) : PyObj
deriving DecidableEq, Repr

/-- The concrete class of a value object, as tested by the `isinstance`
checks (note `ScalarTimeSeries` and `BlobSequenceTimeSeries` are sibling
subclasses of `_TimeSeries`; neither is an instance of the other). -/
def PyObj.classTag : PyObj → Nat
  | .run _ => 0
  | .scalarTimeSeries _ => 1
  | .blobSequenceTimeSeries _ => 2
  | .scalarDatum _ => 3
  | .blobReference _ => 4
  | .blobSequenceDatum _ => 5

/-- Python `==` between value objects: each `__eq__` first checks
`isinstance(other, <same concrete class>)` and returns `False` on
mismatch, otherwise compares fields. -/
def pyEq : PyObj → PyObj → Bool
  | .run a, .run b => a.beq b
  | .run _, _ => false
  | .scalarTimeSeries a, .scalarTimeSeries b => a.beq b
  | .scalarTimeSeries _, _ => false
  | .blobSequenceTimeSeries a, .blobSequenceTimeSeries b => a.beq b
  | .blobSequenceTimeSeries _, _ => false
  | .scalarDatum a, .scalarDatum b => a.beq b
  | .scalarDatum _, _ => false
  | .blobReference a, .blobReference b => a.beq b
  | .blobReference _, _ => false
  | .blobSequenceDatum a, .blobSequenceDatum b => a.beq b
  | .blobSequenceDatum _, _ => false

/-- `RunTagFilter`: two optional frozensets of strings, as stored by
`__init__` (`None if runs is None else frozenset(runs)`, likewise for
`tags`), returned by the `runs` and `tags` properties. -/
structure RunTagFilter where
  runs : Option (Finset String)
  tags : Option (Finset String)
deriving DecidableEq

/-- `RunTagFilter.__init__(runs, tags)` applied to optional string
collections (modelled as lists, which carry order and multiplicity):
each argument is either `None` or converted with `frozenset`. -/
def RunTagFilter.ofLists (runs tags : Option (List String)) : RunTagFilter :=
  ⟨runs.map List.toFinset, tags.map List.toFinset⟩

/-- Modelled from the spec: `RunTagFilter.admits(run, tag)` is not
defined in `src/tensorboard/data/provider.py` (only the stored `runs`
and `tags` sets are); the spec states that `admits(run, tag)` is `True`
iff (`runs is None` or `run in runs`) and (`tags is None` or
`tag in tags`), with no error for any input strings. -/
def RunTagFilter.admits (f : RunTagFilter) (run tag : String) : Bool :=
  (match f.runs with
    | none => true
    | some rs => decide (run ∈ rs)) &&
  (match f.tags with
    | none => true
    | some ts => decide (tag ∈ ts))

namespace DataProvider

/-- `DataProvider.data_location`: the default implementation; its body is
`return ""`. -/
def data_location (_experiment_id : PyVal) : String := ""

/-- The methods declared on the `DataProvider` abstract base class. -/
inductive Method where
  | data_location : Method
  | list_runs : Method
  | list_scalars : Method
  | read_scalars : Method
  | list_tensors : Method
  | read_tensors : Method
  | list_blob_sequences : Method
  | read_blob_sequences : Method
  | read_blob : Method
deriving DecidableEq, Repr

/-- Which methods carry the `@abc.abstractmethod` decorator in the
source: exactly `list_runs`, `list_scalars` and `read_scalars`; the
others (`data_location`, `list_tensors`, `read_tensors`,
`list_blob_sequences`, `read_blob_sequences`, `read_blob`) have plain
concrete bodies. -/
def Method.isAbstract : Method → Bool
  | .list_runs => true
  | .list_scalars => true
  | .read_scalars => true
  | _ => false

/-- All methods declared on `DataProvider`, in source order. -/
def allMethods : List Method :=
  [.data_location, .list_runs, .list_scalars, .read_scalars,
    .list_tensors, .read_tensors, .list_blob_sequences,
    .read_blob_sequences, .read_blob]

/-- A concrete backend subclass, described by which of the interface's
methods it overrides with its own body. -/
def Backend := Method → Bool

/-- The `abc.ABCMeta` rule: a subclass can be instantiated (is a
conforming concrete `DataProvider`) iff it overrides every method marked
`@abc.abstractmethod`. -/
def instantiable (b : Backend) : Bool :=
  allMethods.all fun m => !m.isAbstract || b m

/-- A backend that overrides exactly the three `@abc.abstractmethod`
methods and nothing else. -/
def minimalBackend : Backend := Method.isAbstract

end DataProvider

/-- Modelled from the spec: `list_scalars` is abstract in
`src/tensorboard/data/provider.py` (its body is `pass`), so the result's
key set is modelled from the contract — given the ground-truth set of
(run, tag) pairs for which scalar data exists for the experiment and
plugin, the result contains exactly the existing pairs admitted by the
filter, and all pairs when the filter is omitted. -/
def listScalarsKeys (groundTruth : List (String × String))
    (f : Option RunTagFilter) : List (String × String) :=
  match f with
  | none => groundTruth
  | some f => groundTruth.filter fun p => f.admits p.1 p.2

/-- Modelled from the spec: key set of a `read_scalars` result, under the
same filter contract as `list_scalars`. -/
def readScalarsKeys (groundTruth : List (String × String))
    (f : Option RunTagFilter) : List (String × String) :=
  match f with
  | none => groundTruth
  | some f => groundTruth.filter fun p => f.admits p.1 p.2

/-- Modelled from the spec: key set of a `list_blob_sequences` result,
under the same filter contract as `list_scalars`. -/
def listBlobSequencesKeys (groundTruth : List (String × String))
    (f : Option RunTagFilter) : List (String × String) :=
  match f with
  | none => groundTruth
  | some f => groundTruth.filter fun p => f.admits p.1 p.2

/-- Modelled from the spec: key set of a `read_blob_sequences` result,
under the same filter contract as `list_scalars`. -/
def readBlobSequencesKeys (groundTruth : List (String × String))
    (f : Option RunTagFilter) : List (String × String) :=
  match f with
  | none => groundTruth
  | some f => groundTruth.filter fun p => f.admits p.1 p.2

/-! ### Helper lemmas: each `__eq__` decides structural equality -/

lemma runBeq_iff (a b : Run) : a.beq b = true ↔ a = b := by
  cases a; cases b
  simp [Run.beq]

lemma scalarTimeSeriesBeq_iff (a b : ScalarTimeSeries) :
    a.beq b = true ↔ a = b := by
  cases a; cases b
  simp [ScalarTimeSeries.beq]

lemma blobSequenceTimeSeriesBeq_iff (a b : BlobSequenceTimeSeries) :
    a.beq b = true ↔ a = b := by
  cases a; cases b
  simp [BlobSequenceTimeSeries.beq]

lemma scalarDatumBeq_iff (a b : ScalarDatum) : a.beq b = true ↔ a = b := by
  cases a; cases b
  simp [ScalarDatum.beq]

lemma blobReferenceBeq_iff (a b : BlobReference) :
    a.beq b = true ↔ a = b := by
  cases a; cases b
  simp [BlobReference.beq]

lemma blobListBeq_iff (xs ys : List BlobReference) :
    blobListBeq xs ys = true ↔ xs = ys := by
  induction xs generalizing ys with
  | nil => cases ys <;> simp [blobListBeq]
  | cons a as ih =>
    cases ys with
    | nil => simp [blobListBeq]
    | cons b bs => simp [blobListBeq, blobReferenceBeq_iff, ih]

lemma blobSequenceDatumBeq_iff (a b : BlobSequenceDatum) :
    a.beq b = true ↔ a = b := by
  cases a; cases b
  simp [BlobSequenceDatum.beq, blobListBeq_iff]

/-! ### Claim theorems -/

/-- C1: `RunTagFilter.admits(run, tag)` is a pure total function of the
two stored sets: for every filter and all input strings (no error for
any strings) it returns `True` iff the run-set is absent or contains the
run, and the tag-set is absent or contains the tag; in particular
`RunTagFilter(runs=None, tags=None).admits(r, t)` is `True` for every
`r, t`. -/
theorem admits_characterization :
    ∀ (f : RunTagFilter) (run tag : String),
      (f.admits run tag = true ↔
        ((f.runs = none ∨ ∃ rs, f.runs = some rs ∧ run ∈ rs) ∧
         (f.tags = none ∨ ∃ ts, f.tags = some ts ∧ tag ∈ ts))) ∧
      (RunTagFilter.mk none none).admits run tag = true := by
  intro f run tag
  refine ⟨?_, rfl⟩
  obtain ⟨runs, tags⟩ := f
  cases runs <;> cases tags <;> simp [RunTagFilter.admits]

/-- C2 fails as stated: a backend overriding only the three
`@abc.abstractmethod` methods (`list_runs`, `list_scalars`,
`read_scalars`) is instantiable under the `abc.ABCMeta` rule even though
it supplies no body of its own for `list_blob_sequences`,
`read_blob_sequences`, or `read_blob`. -/
theorem minimalBackend_instantiable_without_blob_methods :
    DataProvider.instantiable DataProvider.minimalBackend = true ∧
    DataProvider.minimalBackend DataProvider.Method.list_blob_sequences = false ∧
    DataProvider.minimalBackend DataProvider.Method.read_blob_sequences = false ∧
    DataProvider.minimalBackend DataProvider.Method.read_blob = false := by
  decide

/-- C2 amended: a backend class is a conforming (instantiable) concrete
`DataProvider` iff it overrides exactly the abstract methods
`list_runs`, `list_scalars`, and `read_scalars`; `data_location`,
`list_tensors`, `read_tensors`, `list_blob_sequences`,
`read_blob_sequences`, and `read_blob` have concrete default bodies and
may be left unoverridden. -/
theorem instantiable_iff_abstract_overridden :
    ∀ b : DataProvider.Backend,
      DataProvider.instantiable b = true ↔
        (b DataProvider.Method.list_runs = true ∧
         b DataProvider.Method.list_scalars = true ∧
         b DataProvider.Method.read_scalars = true) := by
  intro b
  simp [DataProvider.instantiable, DataProvider.allMethods,
    DataProvider.Method.isAbstract]

/-- C3: for each of the six concrete value types, `__eq__` between two
instances of that same type returns `True` iff all corresponding fields
are equal; hence identically constructed instances are equal and
instances differing in any field are unequal. -/
theorem value_types_structural_eq :
    (∀ a b : Run, a.beq b = true ↔
      (a.run_id = b.run_id ∧ a.run_name = b.run_name ∧
        a.start_time = b.start_time)) ∧
    (∀ a b : ScalarTimeSeries, a.beq b = true ↔
      (a.max_step = b.max_step ∧ a.max_wall_time = b.max_wall_time ∧
        a.plugin_content = b.plugin_content ∧
        a.description = b.description ∧
        a.display_name = b.display_name)) ∧
    (∀ a b : BlobSequenceTimeSeries, a.beq b = true ↔
      (a.max_step = b.max_step ∧ a.max_wall_time = b.max_wall_time ∧
        a.latest_max_index = b.latest_max_index ∧
        a.plugin_content = b.plugin_content ∧
        a.description = b.description ∧
        a.display_name = b.display_name)) ∧
    (∀ a b : ScalarDatum, a.beq b = true ↔
      (a.step = b.step ∧ a.wall_time = b.wall_time ∧
        a.value = b.value)) ∧
    (∀ a b : BlobReference, a.beq b = true ↔
      (a.blob_key = b.blob_key ∧ a.url = b.url)) ∧
    (∀ a b : BlobSequenceDatum, a.beq b = true ↔
      (a.step = b.step ∧ a.wall_time = b.wall_time ∧
        a.values = b.values)) := by
  refine ⟨fun a b => ?_, fun a b => ?_, fun a b => ?_,
    fun a b => ?_, fun a b => ?_, fun a b => ?_⟩
  · cases a; cases b; simp [Run.beq]
  · cases a; cases b; simp [ScalarTimeSeries.beq]
  · cases a; cases b; simp [BlobSequenceTimeSeries.beq]
  · cases a; cases b; simp [ScalarDatum.beq]
  · cases a; cases b; simp [BlobReference.beq]
  · cases a; cases b; simp [BlobSequenceDatum.beq, blobListBeq_iff]

/-- C4: for each of the six value types, equal instances hash equally:
`__eq__` returning `True` forces the field tuples that the corresponding
`__hash__` methods hash to coincide, so `a == b` implies
`hash(a) == hash(b)`. -/
theorem value_types_hash_consistent :
    (∀ a b : Run, a.beq b = true → a.hashFields = b.hashFields) ∧
    (∀ a b : ScalarTimeSeries,
      a.beq b = true → a.hashFields = b.hashFields) ∧
    (∀ a b : BlobSequenceTimeSeries,
      a.beq b = true → a.hashFields = b.hashFields) ∧
    (∀ a b : ScalarDatum, a.beq b = true → a.hashFields = b.hashFields) ∧
    (∀ a b : BlobReference,
      a.beq b = true → a.hashFields = b.hashFields) ∧
    (∀ a b : BlobSequenceDatum,
      a.beq b = true → a.hashFields = b.hashFields) := by
  refine ⟨fun a b h => ?_, fun a b h => ?_, fun a b h => ?_,
    fun a b h => ?_, fun a b h => ?_, fun a b h => ?_⟩
  · cases (runBeq_iff a b).1 h; rfl
  · cases (scalarTimeSeriesBeq_iff a b).1 h; rfl
  · cases (blobSequenceTimeSeriesBeq_iff a b).1 h; rfl
  · cases (scalarDatumBeq_iff a b).1 h; rfl
  · cases (blobReferenceBeq_iff a b).1 h; rfl
  · cases (blobSequenceDatumBeq_iff a b).1 h; rfl

/-- Witness for C4 at a concrete pair of equal `Run` values. -/
theorem value_types_hash_consistent_witness :
    (Run.mk (PyVal.strVal "id0") (PyVal.strVal "train") PyVal.none).hashFields
      = (Run.mk (PyVal.strVal "id0") (PyVal.strVal "train") PyVal.none).hashFields :=
  value_types_hash_consistent.1 _ _ (by decide)

/-- C5: for each of the four listing/reading operations, a (run, tag)
pair appears in the result only if it exists in the ground truth for the
experiment and plugin: a filtered result is contained in the unfiltered
one (the filter only removes entries, never adds any), so a filter
naming a nonexistent run or tag contributes no entry; the operations are
total, raising no error for any filter. -/
theorem filtered_keys_subset_ground_truth :
    ∀ (gt : List (String × String)) (f : RunTagFilter) (p : String × String),
      (p ∈ listScalarsKeys gt (some f) →
        p ∈ listScalarsKeys gt none ∧ p ∈ gt) ∧
      (p ∈ readScalarsKeys gt (some f) →
        p ∈ readScalarsKeys gt none ∧ p ∈ gt) ∧
      (p ∈ listBlobSequencesKeys gt (some f) →
        p ∈ listBlobSequencesKeys gt none ∧ p ∈ gt) ∧
      (p ∈ readBlobSequencesKeys gt (some f) →
        p ∈ readBlobSequencesKeys gt none ∧ p ∈ gt) := by
  intro gt f p
  refine ⟨fun h => ?_, fun h => ?_, fun h => ?_, fun h => ?_⟩
  · exact ⟨(List.mem_filter.1 h).1, (List.mem_filter.1 h).1⟩
  · exact ⟨(List.mem_filter.1 h).1, (List.mem_filter.1 h).1⟩
  · exact ⟨(List.mem_filter.1 h).1, (List.mem_filter.1 h).1⟩
  · exact ⟨(List.mem_filter.1 h).1, (List.mem_filter.1 h).1⟩

/-- Witness for C5: the claim instantiated at a one-entry ground truth
and a filter admitting that entry. -/
theorem filtered_keys_subset_ground_truth_witness :
    ("train", "loss") ∈ listScalarsKeys [("train", "loss")] none ∧
    ("train", "loss") ∈ [(("train" : String), ("loss" : String))] :=
  (filtered_keys_subset_ground_truth [("train", "loss")]
    (RunTagFilter.mk (some {"train"}) none) ("train", "loss")).1
    (by decide)

/-- C6: the `RunTagFilter` constructor treats its collections as sets:
order and multiplicity of the input lists are irrelevant — a filter
built from a list with duplicates equals one built from the deduplicated
list, permuted inputs give equal filters — and `None` arguments are
stored as `None`, meaning admit-all. -/
theorem runTagFilter_set_semantics :
    (∀ rs ts : List String,
      RunTagFilter.ofLists (some rs) (some ts)
        = RunTagFilter.ofLists (some rs.dedup) (some ts.dedup)) ∧
    (∀ rs rs2 ts ts2 : List String, rs.Perm rs2 → ts.Perm ts2 →
      RunTagFilter.ofLists (some rs) (some ts)
        = RunTagFilter.ofLists (some rs2) (some ts2)) ∧
    ((RunTagFilter.ofLists none none).runs = none ∧
      (RunTagFilter.ofLists none none).tags = none) := by
  refine ⟨?_, ?_, rfl, rfl⟩
  · intro rs ts
    have h : ∀ l : List String, l.toFinset = l.dedup.toFinset := fun l =>
      Finset.ext fun a => by simp
    show RunTagFilter.mk (some rs.toFinset) (some ts.toFinset)
        = RunTagFilter.mk (some rs.dedup.toFinset) (some ts.dedup.toFinset)
    rw [h rs, h ts]
  · intro rs rs2 ts ts2 h1 h2
    have hr : rs.toFinset = rs2.toFinset :=
      Finset.ext fun a => by simp [h1.mem_iff]
    have ht : ts.toFinset = ts2.toFinset :=
      Finset.ext fun a => by simp [h2.mem_iff]
    show RunTagFilter.mk (some rs.toFinset) (some ts.toFinset)
        = RunTagFilter.mk (some rs2.toFinset) (some ts2.toFinset)
    rw [hr, ht]

/-- Witness for C6: duplicated and permuted input lists yield the same
filter as their deduplicated counterparts. -/
theorem runTagFilter_set_semantics_witness :
    RunTagFilter.ofLists (some ["a", "b", "a"]) (some ["x", "x"])
      = RunTagFilter.ofLists (some ["b", "a", "a"]) (some ["x", "x"]) :=
  runTagFilter_set_semantics.2.1 _ _ _ _ (by decide) (by decide)

/-- C7: the default `DataProvider.data_location` returns the empty
string for every experiment id and, being total, never raises. -/
theorem data_location_default_empty :
    ∀ experiment_id : PyVal,
      DataProvider.data_location experiment_id = "" :=
  fun _ => rfl

/-- C8 fails as stated: constructing a `BlobReference` with an
empty-string `blob_key` is not rejected — `__init__` succeeds and stores
the empty key (and the default `url=None`) unchanged; no enforcement
boundary in this module validates the key. -/
theorem blobReference_empty_key_not_rejected :
    (BlobReference.ofKey (PyVal.strVal "")).blob_key = PyVal.strVal "" ∧
    (BlobReference.ofKey (PyVal.strVal "")).url = PyVal.none :=
  ⟨rfl, rfl⟩

/-- C8 amended: `BlobReference` construction performs no validation of
`blob_key` (neither non-emptiness nor the `[a-zA-Z0-9._~-]` character
set): for every key and url the constructor succeeds and stores both
unchanged; the key restrictions are a documented contract on producers
with no enforcement point in this module. -/
theorem blobReference_construction_unvalidated :
    ∀ k u : PyVal,
      (BlobReference.mk k u).blob_key = k ∧ (BlobReference.mk k u).url = u :=
  fun _ _ => ⟨rfl, rfl⟩

/-- C9: construction of each of the six value types performs no
validation: for arbitrary field values the constructor succeeds and each
property returns exactly the value passed for the corresponding field;
for `BlobReference` an omitted `url` is stored as `None`. -/
theorem value_type_construction_no_validation :
    (∀ a b c : PyVal, (Run.mk a b c).run_id = a ∧
      (Run.mk a b c).run_name = b ∧ (Run.mk a b c).start_time = c) ∧
    (∀ a b c d e : PyVal,
      (ScalarTimeSeries.mk a b c d e).max_step = a ∧
      (ScalarTimeSeries.mk a b c d e).max_wall_time = b ∧
      (ScalarTimeSeries.mk a b c d e).plugin_content = c ∧
      (ScalarTimeSeries.mk a b c d e).description = d ∧
      (ScalarTimeSeries.mk a b c d e).display_name = e) ∧
    (∀ a b c d e f : PyVal,
      (BlobSequenceTimeSeries.mk a b c d e f).max_step = a ∧
      (BlobSequenceTimeSeries.mk a b c d e f).max_wall_time = b ∧
      (BlobSequenceTimeSeries.mk a b c d e f).latest_max_index = c ∧
      (BlobSequenceTimeSeries.mk a b c d e f).plugin_content = d ∧
      (BlobSequenceTimeSeries.mk a b c d e f).description = e ∧
      (BlobSequenceTimeSeries.mk a b c d e f).display_name = f) ∧
    (∀ a b c : PyVal, (ScalarDatum.mk a b c).step = a ∧
      (ScalarDatum.mk a b c).wall_time = b ∧
      (ScalarDatum.mk a b c).value = c) ∧
    (∀ k u : PyVal, (BlobReference.mk k u).blob_key = k ∧
      (BlobReference.mk k u).url = u ∧
      BlobReference.ofKey k = BlobReference.mk k PyVal.none) ∧
    (∀ a b : PyVal, ∀ vs : List BlobReference,
      (BlobSequenceDatum.mk a b vs).step = a ∧
      (BlobSequenceDatum.mk a b vs).wall_time = b ∧
      (BlobSequenceDatum.mk a b vs).values = vs) :=
  ⟨fun _ _ _ => ⟨rfl, rfl, rfl⟩,
    fun _ _ _ _ _ => ⟨rfl, rfl, rfl, rfl, rfl⟩,
    fun _ _ _ _ _ _ => ⟨rfl, rfl, rfl, rfl, rfl, rfl⟩,
    fun _ _ _ => ⟨rfl, rfl, rfl⟩,
    fun _ _ => ⟨rfl, rfl, rfl⟩,
    fun _ _ _ => ⟨rfl, rfl, rfl⟩⟩

/-- C10: Python `==` between instances of two different concrete value
types returns `False` (each `__eq__` fails its `isinstance` check and
returns rather than raising), including between a `ScalarTimeSeries` and
a `BlobSequenceTimeSeries` whose shared base fields all agree. -/
theorem cross_type_eq_is_false :
    ∀ x y : PyObj, x.classTag ≠ y.classTag → pyEq x y = false := by
  intro x y h
  cases x <;> cases y <;> first | rfl | exact absurd rfl h

/-- Witness for C10: a `ScalarTimeSeries` and a `BlobSequenceTimeSeries`
with identical shared base fields compare unequal. -/
theorem cross_type_eq_is_false_witness :
    pyEq
      (PyObj.scalarTimeSeries
        (ScalarTimeSeries.mk (PyVal.intVal 7) (PyVal.floatVal 2)
          (PyVal.bytesVal []) (PyVal.strVal "") (PyVal.strVal "")))
      (PyObj.blobSequenceTimeSeries
        (BlobSequenceTimeSeries.mk (PyVal.intVal 7) (PyVal.floatVal 2)
          (PyVal.intVal 0) (PyVal.bytesVal []) (PyVal.strVal "")
          (PyVal.strVal ""))) = false :=
  cross_type_eq_is_false _ _ (by decide)

end Provider
